import Mathlib

/-!
Verification of the ep-keycap-generator repository.

Part 1 embeds the TypeScript frontend sources
(`src/frontend/src/types/machines.ts`, `src/frontend/src/App.tsx`,
`KeycapEditor`, `KeycapStrip`, `PadGrid`, `SettingsPanel`).
JavaScript strings are modelled as `List Char`, numbers carrying
millimetre values as `ℚ`, and `null`-able numbers as `Option ℚ`.
JavaScript objects used as string-keyed records are modelled as
association lists in insertion order.

Part 2 models the Python mesh-generation backend, which is not part of
the repository snapshot; those definitions are modelled from the spec
and marked as such in their doc comments.
-/

/-- Machine identifiers, from machines.ts: `'EP-133' | 'EP-1320' | 'EP-40'`. -/
inductive MachineType
  | EP133
  | EP1320
  | EP40
deriving DecidableEq, Repr

/-- Keycap categories from machines.ts: `'bank' | 'number' | 'operator' | 'transport'`. -/
inductive KeycapCategory
  | bank
  | number
  | operator
  | transport
deriving DecidableEq, Repr

/-- `KeycapDefinition` from machines.ts: static per-keycap data. -/
structure KeycapDefinition where
  position : Nat
  id : String
  defaultLabel : List Char
  category : KeycapCategory
deriving DecidableEq, Repr

/-- `KEYCAP_SEQUENCE` from machines.ts: the canonical 20-keycap sequence,
left to right on the device. -/
def KEYCAP_SEQUENCE : List KeycapDefinition := [
  ⟨0,  "A",     ['A'], KeycapCategory.bank⟩,
  ⟨1,  "B",     ['B'], KeycapCategory.bank⟩,
  ⟨2,  "C",     ['C'], KeycapCategory.bank⟩,
  ⟨3,  "D",     ['D'], KeycapCategory.bank⟩,
  ⟨4,  "9",     ['9'], KeycapCategory.number⟩,
  ⟨5,  "8",     ['8'], KeycapCategory.number⟩,
  ⟨6,  "7",     ['7'], KeycapCategory.number⟩,
  ⟨7,  "6",     ['6'], KeycapCategory.number⟩,
  ⟨8,  "5",     ['5'], KeycapCategory.number⟩,
  ⟨9,  "4",     ['4'], KeycapCategory.number⟩,
  ⟨10, "3",     ['3'], KeycapCategory.number⟩,
  ⟨11, "2",     ['2'], KeycapCategory.number⟩,
  ⟨12, "1",     ['1'], KeycapCategory.number⟩,
  ⟨13, "DOT",   ['·'], KeycapCategory.number⟩,
  ⟨14, "0",     ['0'], KeycapCategory.number⟩,
  ⟨15, "ENTER", ['E'], KeycapCategory.operator⟩,
  ⟨16, "MINUS", ['−'], KeycapCategory.operator⟩,
  ⟨17, "PLUS",  ['+'], KeycapCategory.operator⟩,
  ⟨18, "REC",   ['●'], KeycapCategory.transport⟩,
  ⟨19, "PLAY",  ['▶'], KeycapCategory.transport⟩]

/-- `dotVariant` field of `MachineConfig`: `'dot' | 'square'`. -/
inductive DotVariant
  | dot
  | square
deriving DecidableEq, Repr

/-- `PadPosition` from machines.ts (percentage-based SVG placement). -/
structure PadPosition where
  x : ℚ
  y : ℚ
  w : ℚ
  h : ℚ
deriving DecidableEq, Repr

/-- `MachineConfig` from machines.ts. -/
structure MachineConfig where
  id : MachineType
  name : String
  description : String
  color : String
  svgAsset : Option String
  dotVariant : DotVariant
  padPositions : List (String × PadPosition)
deriving DecidableEq, Repr

/-- Column x-percentages `COL` from machines.ts. -/
def COL : List ℚ := [23, 35.5, 47.5, 59.5, 72, 84.5]

/-- Row y-percentages `ROW` from machines.ts. -/
def ROW : List ℚ := [14.5, 35.5, 56.5, 77.5]

/-- Pad width percentage `PW`. -/
def PW : ℚ := 11

/-- Pad height percentage `PH`. -/
def PH : ℚ := 16

/-- `buildPadPositions` from machines.ts: the shared keycap-id → pad
position table. -/
def buildPadPositions : List (String × PadPosition) := [
  ("A",     ⟨COL.getD 0 0, ROW.getD 0 0, PW, PH⟩),
  ("7",     ⟨COL.getD 1 0, ROW.getD 0 0, PW, PH⟩),
  ("8",     ⟨COL.getD 2 0, ROW.getD 0 0, PW, PH⟩),
  ("9",     ⟨COL.getD 3 0, ROW.getD 0 0, PW, PH⟩),
  ("B",     ⟨COL.getD 0 0, ROW.getD 1 0, PW, PH⟩),
  ("4",     ⟨COL.getD 1 0, ROW.getD 1 0, PW, PH⟩),
  ("5",     ⟨COL.getD 2 0, ROW.getD 1 0, PW, PH⟩),
  ("6",     ⟨COL.getD 3 0, ROW.getD 1 0, PW, PH⟩),
  ("C",     ⟨COL.getD 0 0, ROW.getD 2 0, PW, PH⟩),
  ("1",     ⟨COL.getD 1 0, ROW.getD 2 0, PW, PH⟩),
  ("2",     ⟨COL.getD 2 0, ROW.getD 2 0, PW, PH⟩),
  ("3",     ⟨COL.getD 3 0, ROW.getD 2 0, PW, PH⟩),
  ("MINUS", ⟨COL.getD 4 0, ROW.getD 2 0, PW, PH⟩),
  ("PLUS",  ⟨COL.getD 5 0, ROW.getD 2 0, PW, PH⟩),
  ("D",     ⟨COL.getD 0 0, ROW.getD 3 0, PW, PH⟩),
  ("DOT",   ⟨COL.getD 1 0, ROW.getD 3 0, PW, PH⟩),
  ("0",     ⟨COL.getD 2 0, ROW.getD 3 0, PW, PH⟩),
  ("ENTER", ⟨COL.getD 3 0, ROW.getD 3 0, PW, PH⟩),
  ("REC",   ⟨COL.getD 4 0, ROW.getD 3 0, PW, PH⟩),
  ("PLAY",  ⟨COL.getD 5 0, ROW.getD 3 0, PW, PH⟩)]

/-- `MACHINE_CONFIGS` from machines.ts, as a total map on the machine type. -/
def MACHINE_CONFIGS : MachineType → MachineConfig
  | MachineType.EP133 =>
      ⟨MachineType.EP133, "EP-133 K.O. II", "128 MB Sampler Composer", "#FF6B00",
        some "/machines/ep-133.svg", DotVariant.dot, buildPadPositions⟩
  | MachineType.EP1320 =>
      ⟨MachineType.EP1320, "EP-1320 Medieval", "Medieval Sampler", "#8B4513",
        some "/machines/ep-1320.svg", DotVariant.dot, buildPadPositions⟩
  | MachineType.EP40 =>
      ⟨MachineType.EP40, "EP-40", "Microphone & FX", "#00503A",
        some "/machines/ep-40.svg", DotVariant.square, buildPadPositions⟩

/-- `Keycap` from machines.ts: per-keycap customization state. -/
structure Keycap where
  id : String
  position : Nat
  char : List Char
  size : Option ℚ
  offsetX : ℚ
  offsetY : ℚ
  depth : Option ℚ
deriving DecidableEq, Repr

/-- `createDefaultKeycaps` from machines.ts: one keycap per
`KEYCAP_SEQUENCE` entry, keyed by id (insertion-ordered record). -/
def createDefaultKeycaps (config : MachineConfig) : List (String × Keycap) :=
  KEYCAP_SEQUENCE.map (fun d =>
    let label := if d.id = "DOT" ∧ config.dotVariant = DotVariant.square
      then ['■'] else d.defaultLabel
    (d.id, ⟨d.id, d.position, label, none, 0, 0, none⟩))

/-- JavaScript `String.prototype.toLowerCase`, restricted to the
per-character lowering used by the device-name patterns. -/
def lowerChars (s : List Char) : List Char := s.map Char.toLower

/-- JavaScript `String.prototype.includes`: `pat` occurs contiguously in `s`. -/
def includesSub : List Char → List Char → Bool
  | [], pat => pat.isEmpty
  | c :: rest, pat => pat.isPrefixOf (c :: rest) || includesSub rest pat

/-- Pattern group of the hook's first `if`: the lowercased name contains
`'ep-133'`, `'ep133'`, `'ko ii'` or `'k.o. ii'`. -/
def matchesEP133 (name : List Char) : Bool :=
  includesSub (lowerChars name) "ep-133".toList ||
  includesSub (lowerChars name) "ep133".toList ||
  includesSub (lowerChars name) "ko ii".toList ||
  includesSub (lowerChars name) "k.o. ii".toList

/-- Pattern group of the second `if`: `'ep-1320'`, `'ep1320'` or `'medieval'`. -/
def matchesEP1320 (name : List Char) : Bool :=
  includesSub (lowerChars name) "ep-1320".toList ||
  includesSub (lowerChars name) "ep1320".toList ||
  includesSub (lowerChars name) "medieval".toList

/-- Pattern group of the third `if`: `'ep-40'` or `'ep40'`. -/
def matchesEP40 (name : List Char) : Bool :=
  includesSub (lowerChars name) "ep-40".toList ||
  includesSub (lowerChars name) "ep40".toList

/-- Pattern group of the generic Teenage Engineering fallback rule:
`'teenage'` or `'t.e.'`. -/
def matchesTE (name : List Char) : Bool :=
  includesSub (lowerChars name) "teenage".toList ||
  includesSub (lowerChars name) "t.e.".toList

/-- `detectMachineFromName` from the MIDI-detection hook in machines.ts:
case-insensitive device-name pattern match over the lowercased name,
first matching rule wins (the source lowercases the name once; the
pattern groups above re-lower it, which is observationally identical). -/
def detectMachineFromName (name : List Char) : Option MachineType :=
  if matchesEP133 name then
    some MachineType.EP133
  else if matchesEP1320 name then
    some MachineType.EP1320
  else if matchesEP40 name then
    some MachineType.EP40
  else if matchesTE name then
    some MachineType.EP133
  else
    none

/-- `Keycap` interface from `src/frontend/src/App.tsx` (numeric ids,
unlike the string-keyed machines.ts `Keycap`). -/
structure AppKeycap where
  id : Nat
  char : List Char
  size : Option ℚ
  offsetX : ℚ
  offsetY : ℚ
  depth : Option ℚ
deriving DecidableEq, Repr

/-- One element of the `keycaps` array sent to `POST /generate` by
`generateSTLs` in App.tsx. -/
structure RequestItem where
  id : Nat
  char : List Char
  size : ℚ
  offset_x : ℚ
  offset_y : ℚ
  depth : ℚ
deriving DecidableEq, Repr

/-- The per-keycap mapping inside `generateSTLs` (App.tsx lines 60-67):
`size: k.size ?? defaultSize`, `depth: k.depth ?? engraveDepth`.
JavaScript `??` falls back only on `null`/`undefined`, modelled by
`Option.getD`. -/
def toRequestItem (k : AppKeycap) (defaultSize engraveDepth : ℚ) : RequestItem :=
  ⟨k.id, k.char, k.size.getD defaultSize, k.offsetX, k.offsetY, k.depth.getD engraveDepth⟩

/-- The whole `keycaps` payload built by `generateSTLs`. -/
def generateRequestItems (ks : List AppKeycap) (defaultSize engraveDepth : ℚ) :
    List RequestItem :=
  ks.map (fun k => toRequestItem k defaultSize engraveDepth)

/-- `effectiveSize` from KeycapEditor: `keycap.size ?? defaultSize`. -/
def effectiveSize (k : AppKeycap) (defaultSize : ℚ) : ℚ := k.size.getD defaultSize

/-- `effectiveDepth` from KeycapEditor: `keycap.depth ?? defaultDepth`. -/
def effectiveDepth (k : AppKeycap) (defaultDepth : ℚ) : ℚ := k.depth.getD defaultDepth

/-- An HTML numeric input or range slider described by its `min`, `max`
and `step` attributes. -/
structure RangeControl where
  min : ℚ
  max : ℚ
  step : ℚ
deriving DecidableEq, Repr

/-- KeycapEditor size input: `min="3" max="16" step="0.5"`. -/
def keycapEditorSizeInput : RangeControl := ⟨3, 16, 0.5⟩

/-- KeycapEditor engrave-depth input: `min="0.2" max="2.0" step="0.1"`. -/
def keycapEditorDepthInput : RangeControl := ⟨0.2, 2, 0.1⟩

/-- SettingsPanel text-size slider: `min="6" max="14" step="0.5"`. -/
def settingsSizeSlider : RangeControl := ⟨6, 14, 0.5⟩

/-- SettingsPanel engrave-depth slider: `min="0.4" max="1.2" step="0.1"`. -/
def settingsDepthSlider : RangeControl := ⟨0.4, 1.2, 0.1⟩

/-- A value is admitted by a control when it lies between the control's
declared `min` and `max`. -/
def RangeControl.admitsVal (c : RangeControl) (v : ℚ) : Prop :=
  c.min ≤ v ∧ v ≤ c.max

/-- KeycapEditor character-field `onChange` handler:
`onUpdate({ char: e.target.value.slice(0, 4) })` — stores the first four
units of whatever is in the field, including the empty string. -/
def keycapEditorCharUpdate (value : List Char) : List Char := value.take 4

/-- `finishEdit` from KeycapStrip.tsx: when a keycap is being edited and
the entered value is nonempty, stores `editValue.slice(0, 4)` for that
id; otherwise performs no char update. -/
def keycapStripFinishEdit (editingId : Option String) (editValue : List Char) :
    Option (String × List Char) :=
  match editingId with
  | some i => if editValue.length > 0 then some (i, editValue.take 4) else none
  | none => none

/-- `finishEdit` from PadGrid.tsx: when a pad is being edited and the
entered value is nonempty, stores `editValue.slice(0, 2)` for that pad;
otherwise performs no char update. -/
def padGridFinishEdit (editingPad : Option String) (editValue : List Char) :
    Option (String × List Char) :=
  match editingPad with
  | some p => if editValue.length > 0 then some (p, editValue.take 2) else none
  | none => none

/-- A 2D point in millimetres (spec §3, PlanarShape / glyph outlines). -/
abbrev Point2 := ℚ × ℚ

/-- A closed contour: an ordered sequence of 2D points (spec §3). -/
abbrev Contour := List Point2

/-- Modelled from the spec (§3): a `PlanarShape` is a 2D polygon set of
contours produced by layout+tessellation. -/
structure PlanarShape where
  contours : List Contour

/-- Modelled from the spec (§3, §4.1): a parsed font — codepoint → glyph
outline in font design units, per-glyph advance width, `unitsPerEm`, and
a designated fallback glyph. The backend (freetype-py) is absent from
the repository snapshot. -/
structure FontHandle where
  glyphs : Char → Option (List Contour)
  advanceOf : Char → ℚ
  unitsPerEm : ℚ
  fallback : List Contour

/-- Modelled from the spec (§4.1): `GlyphNotFound` never aborts — the
caller substitutes the fallback glyph and continues. -/
def outlineOf (h : FontHandle) (cp : Char) : List Contour :=
  (h.glyphs cp).getD h.fallback

/-- Modelled from the spec (§4.2): place glyphs left-to-right using
cumulative scaled advances, scaling design units by `k`. -/
def placeGlyphs (h : FontHandle) (k : ℚ) : List Char → ℚ → List Contour
  | [], _ => []
  | cp :: rest, penX =>
      (outlineOf h cp).map (fun c => c.map (fun p => (k * p.1 + penX, k * p.2)))
        ++ placeGlyphs h k rest (penX + k * h.advanceOf cp)

/-- Axis-aligned bounding box of a point set. -/
structure BBox where
  xmin : ℚ
  ymin : ℚ
  xmax : ℚ
  ymax : ℚ

/-- Bounding box of a contour list, `none` when there are no points. -/
def bboxOf (cs : List Contour) : Option BBox :=
  match cs.flatten with
  | [] => none
  | p :: ps =>
      some (ps.foldl
        (fun bb q => ⟨min bb.xmin q.1, min bb.ymin q.2, max bb.xmax q.1, max bb.ymax q.2⟩)
        ⟨p.1, p.2, p.1, p.2⟩)

/-- Modelled from the spec (§4.2 `layout`): scale by `sizeMm / unitsPerEm`,
place glyphs by cumulative advances, centre the combined bounding box on
the top-face centre, then apply the manual offsets. Empty text yields a
shape with zero contours. -/
def layout (h : FontHandle) (text : List Char) (sizeMm offX offY : ℚ) : PlanarShape :=
  let k := sizeMm / h.unitsPerEm
  let placed := placeGlyphs h k text 0
  match bboxOf placed with
  | none => ⟨[]⟩
  | some bb =>
      let cx := (bb.xmin + bb.xmax) / 2
      let cy := (bb.ymin + bb.ymax) / 2
      ⟨placed.map (fun c => c.map (fun p => (p.1 - cx + offX, p.2 - cy + offY)))⟩

/-- A 2D triangle produced by tessellation. -/
abbrev Tri2 := Point2 × Point2 × Point2

/-- Deterministic fan triangulation of one contour (fixed traversal from
its first vertex). -/
def fanTriangles : Contour → List Tri2
  | [] => []
  | p0 :: rest => (rest.zip rest.tail).map (fun ab => (p0, ab.1, ab.2))

/-- Modelled from the spec (§4.3 `tessellate`): contours are triangulated
in a fixed traversal order by a stable algorithm, so identical input
yields identical triangle order. Hole subtraction and degenerate-contour
filtering are abstracted; the claims under verification depend only on
the deterministic structure. -/
def tessellate (s : PlanarShape) : List Tri2 :=
  (s.contours.map fanTriangles).flatten

/-- A 3D vertex in millimetres. -/
structure Vec3 where
  x : ℚ
  y : ℚ
  z : ℚ
deriving DecidableEq, Repr

/-- Modelled from the spec (§3): a `Solid` is a triangulated 3D mesh —
vertex positions plus triangle index triples. -/
structure Solid where
  vertices : List Vec3
  tris : List (Nat × Nat × Nat)
deriving DecidableEq, Repr

/-- Concatenate two triangle meshes, re-indexing the second one's triangles. -/
def appendSolid (s t : Solid) : Solid :=
  ⟨s.vertices ++ t.vertices,
   s.tris ++ t.tris.map (fun tr =>
     (tr.1 + s.vertices.length, tr.2.1 + s.vertices.length, tr.2.2 + s.vertices.length))⟩

/-- Modelled from the spec (§4.4): epsilon overlap extending the stamp
past the nominal face (0.01–0.05 mm; 0.02 mm here). -/
def epsOverlap : ℚ := 1/50

/-- The prism over one 2D triangle between heights `zBot` and `zTop`:
6 vertices, 8 triangles (bottom, top, two per side wall). -/
def prismOf (t : Tri2) (zBot zTop : ℚ) : Solid :=
  ⟨[⟨t.1.1, t.1.2, zBot⟩, ⟨t.2.1.1, t.2.1.2, zBot⟩, ⟨t.2.2.1, t.2.2.2, zBot⟩,
    ⟨t.1.1, t.1.2, zTop⟩, ⟨t.2.1.1, t.2.1.2, zTop⟩, ⟨t.2.2.1, t.2.2.2, zTop⟩],
   [(0, 2, 1), (3, 4, 5),
    (0, 1, 4), (0, 4, 3), (1, 2, 5), (1, 5, 4), (2, 0, 3), (2, 3, 5)]⟩

/-- Modelled from the spec (§4.4 step b): extrude the tessellated 2D
shape along the top-face normal by `depthMm`, pointing downward for
engrave and upward for emboss, extended by the epsilon overlap. -/
def extrude (ts : List Tri2) (depthMm : ℚ) (engrave : Bool) : Solid :=
  let zBot := if engrave then -depthMm else -epsOverlap
  let zTop := if engrave then epsOverlap else depthMm
  ts.foldl (fun s t => appendSolid s (prismOf t zBot zTop)) ⟨[], []⟩

/-- Reverse the winding of every triangle of a mesh. -/
def flipSolid (s : Solid) : Solid :=
  ⟨s.vertices, s.tris.map (fun tr => (tr.1, tr.2.2, tr.2.1))⟩

/-- Modelled from the spec (§4.4 step d): boolean subtraction (engrave)
or union (emboss) of the stamp against the base. True CSG numerics are
out of the model's scope; the combination is a deterministic mesh merge,
with the subtracted stamp orientation-reversed. -/
def booleanCombine (base stamp : Solid) (engrave : Bool) : Solid :=
  appendSolid base (if engrave then flipSolid stamp else stamp)

/-- Componentwise vector difference. -/
def vsub (a b : Vec3) : Vec3 := ⟨a.x - b.x, a.y - b.y, a.z - b.z⟩

/-- Cross product. -/
def vcross (a b : Vec3) : Vec3 :=
  ⟨a.y * b.z - a.z * b.y, a.z * b.x - a.x * b.z, a.x * b.y - a.y * b.x⟩

/-- Vertex position of index `i`, origin for an out-of-range index. -/
def vertexAt (s : Solid) (i : Nat) : Vec3 := s.vertices.getD i ⟨0, 0, 0⟩

/-- A triangle is degenerate when its (unnormalised) normal vanishes. -/
def triDegenerate (s : Solid) (tr : Nat × Nat × Nat) : Bool :=
  vcross (vsub (vertexAt s tr.2.1) (vertexAt s tr.1))
         (vsub (vertexAt s tr.2.2) (vertexAt s tr.1)) = (⟨0, 0, 0⟩ : Vec3)

/-- Modelled from the spec (§4.5): auto-repair drops degenerate
triangles; when the repaired mesh is empty the item falls back to the
unengraved base solid (§4.4 failure policy), so the validator never
rejects the final returned solid. -/
def validateRepair (base s : Solid) : Solid :=
  let r : Solid := ⟨s.vertices, s.tris.filter (fun tr => ¬ triDegenerate s tr)⟩
  if r.tris.isEmpty then base else r

/-- The 80-byte free-form binary STL header (spec §4.6), zero-filled. -/
def header80 : List Nat := List.replicate 80 0

/-- A 32-bit little-endian unsigned integer as four bytes. -/
def u32LE (n : Nat) : List Nat :=
  [n % 256, n / 256 % 256, n / 2 ^ 16 % 256, n / 2 ^ 24 % 256]

/-- Modelled from the spec (§4.6): each coordinate occupies a 4-byte
float slot. The spec fixes only the slot width; IEEE-754 bit patterns
are abstracted to a two's-complement fixed-point encoding at 1/1000 mm. -/
def fix32 (q : ℚ) : Nat := ((⌊q * 1000⌋ % 2 ^ 32 + 2 ^ 32) % 2 ^ 32).toNat

/-- A 4-byte little-endian coordinate slot. -/
def f32LE (q : ℚ) : List Nat := u32LE (fix32 q)

/-- A 12-byte vector: three 4-byte coordinate slots. -/
def vec3Bytes (v : Vec3) : List Nat := f32LE v.x ++ f32LE v.y ++ f32LE v.z

/-- Per-triangle (unnormalised) normal vector recomputed from the
vertex positions. -/
def triNormal (s : Solid) (tr : Nat × Nat × Nat) : Vec3 :=
  vcross (vsub (vertexAt s tr.2.1) (vertexAt s tr.1))
         (vsub (vertexAt s tr.2.2) (vertexAt s tr.1))

/-- The 50-byte record of one triangle (spec §4.6): a 12-byte normal,
three 12-byte vertices, and a 2-byte zero-filled attribute field. -/
def triBytes (s : Solid) (tr : Nat × Nat × Nat) : List Nat :=
  vec3Bytes (triNormal s tr) ++
  vec3Bytes (vertexAt s tr.1) ++
  vec3Bytes (vertexAt s tr.2.1) ++
  vec3Bytes (vertexAt s tr.2.2) ++ [0, 0]

/-- Modelled from the spec (§4.6 `serialize`): an 80-byte header, a
4-byte little-endian triangle count, then 50 bytes per triangle — the
binary STL layout. -/
def serialize (s : Solid) : List Nat :=
  header80 ++ u32LE s.tris.length ++ (s.tris.map (triBytes s)).flatten

/-- Modelled from the spec (§3): a backend `KeycapSpec` — id, 1–4 code
points of text, nullable size and depth, manual centering offsets. -/
structure KeycapSpec where
  id : String
  text : List Char
  sizeMm : Option ℚ
  depthMm : Option ℚ
  offsetXMm : ℚ
  offsetYMm : ℚ
deriving DecidableEq, Repr

/-- Batch-level defaults (spec §6): default size and default depth. -/
structure BatchDefaults where
  defaultSizeMm : ℚ
  defaultDepthMm : ℚ
deriving DecidableEq, Repr

/-- The resolved size: explicit value or the batch default (spec §3). -/
def resolvedSizeMm (spec : KeycapSpec) (d : BatchDefaults) : ℚ :=
  spec.sizeMm.getD d.defaultSizeMm

/-- The resolved depth: explicit value or the batch default (spec §3). -/
def resolvedDepthMm (spec : KeycapSpec) (d : BatchDefaults) : ℚ :=
  spec.depthMm.getD d.defaultDepthMm

/-- Modelled from the spec (§3 invariant): the resolved size must lie in
[3, 16] mm and the resolved depth in [0.1, 2.0] mm before generation
proceeds. -/
def configValid (spec : KeycapSpec) (d : BatchDefaults) : Bool :=
  decide (3 ≤ resolvedSizeMm spec d) && decide (resolvedSizeMm spec d ≤ 16) &&
  decide (1/10 ≤ resolvedDepthMm spec d) && decide (resolvedDepthMm spec d ≤ 2)

/-- Error kinds of the pipeline (spec §7). -/
inductive ErrorKind
  | FontParseError
  | GlyphNotFound
  | InvalidConfigError
  | BooleanFailure
  | MeshInvalid
  | SerializationError
  | TimeoutError
deriving DecidableEq, Repr

/-- Modelled from the spec (§3): a `GeneratedArtifact` is an
`{ id, filename, bytes }` triple. -/
structure GeneratedArtifact where
  id : String
  filename : String
  bytes : List Nat
deriving DecidableEq, Repr

/-- Filename sanitisation for `<id>_<sanitizedText>.<ext>` (spec §4.7);
cross-item collision disambiguation is outside the modelled scope. -/
def filenameFor (spec : KeycapSpec) : String :=
  spec.id ++ "_" ++ String.mk (spec.text.filter Char.isAlphanum) ++ ".stl"

/-- Modelled from the spec (§4.4 `build` with §4.2–§4.3 upstream): lay
out and tessellate the text, extrude the stamp, and engrave it into the
base; when the laid-out shape has zero contours the boolean combination
step is skipped and the base solid is returned unchanged (step c). -/
def generateSolid (base : Solid) (h : FontHandle) (spec : KeycapSpec)
    (d : BatchDefaults) : Solid :=
  let shape := layout h spec.text (resolvedSizeMm spec d) spec.offsetXMm spec.offsetYMm
  if shape.contours.isEmpty then
    base
  else
    validateRepair base
      (booleanCombine base
        (extrude (tessellate shape) (resolvedDepthMm spec d) true) true)

/-- Full single-item pipeline output: the serialized bytes of the
generated solid (spec §4.2 → §4.6). -/
def pipelineBytes (h : FontHandle) (spec : KeycapSpec) (d : BatchDefaults)
    (base : Solid) : List Nat :=
  serialize (generateSolid base h spec d)

/-- Modelled from the spec (§4.7, §7): one batch item — out-of-bounds
size/depth fails only that item with `InvalidConfigError`; boolean and
mesh failures are recovered by the base-solid fallback inside
`generateSolid`, so they never surface as failures. -/
def processItem (base : Solid) (h : FontHandle) (spec : KeycapSpec)
    (d : BatchDefaults) : Except ErrorKind GeneratedArtifact :=
  if configValid spec d then
    Except.ok ⟨spec.id, filenameFor spec, pipelineBytes h spec d base⟩
  else
    Except.error ErrorKind.InvalidConfigError

/-- A per-item failure entry: id plus error kind (spec §3 BatchResult). -/
structure FailureEntry where
  id : String
  kind : ErrorKind
deriving DecidableEq, Repr

/-- Modelled from the spec (§3): artifacts plus per-item failures. -/
structure BatchResult where
  artifacts : List GeneratedArtifact
  failures : List FailureEntry
deriving DecidableEq, Repr

/-- Batch-level aborts (spec §7): only an unparseable font or zero
specs abort the whole batch. -/
inductive BatchAbort
  | fontParseError
  | zeroSpecs
deriving DecidableEq, Repr

/-- Process the items in order, converting each per-item error into a
failure entry (spec §4.7 fail-soft policy). -/
def runItems (base : Solid) (h : FontHandle) (d : BatchDefaults) :
    List KeycapSpec → BatchResult → BatchResult
  | [], acc => acc
  | spec :: rest, acc =>
      match processItem base h spec d with
      | Except.ok a => runItems base h d rest ⟨acc.artifacts ++ [a], acc.failures⟩
      | Except.error k => runItems base h d rest ⟨acc.artifacts, acc.failures ++ [⟨spec.id, k⟩]⟩

/-- Modelled from the spec (§4.7 `run`): the batch orchestrator. The
font argument is the Font Atlas `load` outcome; an unparseable font or
an empty spec list aborts the batch, every other error is caught per
item. -/
def runBatch (font : Except Unit FontHandle) (base : Solid)
    (specs : List KeycapSpec) (d : BatchDefaults) : Except BatchAbort BatchResult :=
  match font with
  | Except.error _ => Except.error BatchAbort.fontParseError
  | Except.ok h =>
      if specs.isEmpty then
        Except.error BatchAbort.zeroSpecs
      else
        Except.ok (runItems base h d specs ⟨[], []⟩)

/-- A concrete font used to instantiate witnesses: no glyphs, a hollow
box as fallback, 1000 design units per em. -/
def sampleFont : FontHandle :=
  ⟨fun _ => none, fun _ => 600, 1000, [[(0, 0), (500, 0), (500, 700), (0, 700)]]⟩

/-- A concrete base solid used to instantiate witnesses: one triangle. -/
def sampleBase : Solid :=
  ⟨[⟨0, 0, 0⟩, ⟨10, 0, 0⟩, ⟨0, 10, 0⟩], [(0, 1, 2)]⟩

lemma length_vec3Bytes (v : Vec3) : (vec3Bytes v).length = 12 := by
  simp [vec3Bytes, f32LE, u32LE]

lemma length_triBytes (s : Solid) (tr : Nat × Nat × Nat) :
    (triBytes s tr).length = 50 := by
  simp [triBytes, length_vec3Bytes, f32LE, u32LE]

lemma length_flatten_triBytes (s : Solid) :
    ∀ l : List (Nat × Nat × Nat), ((l.map (triBytes s)).flatten).length = 50 * l.length
  | [] => by simp
  | tr :: rest => by
      simp [length_triBytes, length_flatten_triBytes s rest, Nat.mul_succ, Nat.add_comm]

/-- C1: the serialized output of `serialize` on any Solid is exactly
`84 + 50 × triangleCount` bytes: an 80-byte header, a 4-byte
little-endian triangle count, then 50 bytes per triangle. -/
theorem serialize_length (s : Solid) :
    (serialize s).length = 84 + 50 * s.tris.length := by
  rw [serialize, List.length_append, List.length_append, length_flatten_triBytes]
  simp [header80, u32LE]

lemma layout_nil (h : FontHandle) (sizeMm offX offY : ℚ) :
    layout h [] sizeMm offX offY = ⟨[]⟩ := rfl

/-- C2: when the keycap text is empty — or more generally whenever the
laid-out `PlanarShape` has zero contours — `generateSolid` skips the
boolean combination step and returns the base keycap solid unchanged. -/
theorem generateSolid_empty_text (base : Solid) (h : FontHandle)
    (spec : KeycapSpec) (d : BatchDefaults)
    (hempty : spec.text = [] ∨
      (layout h spec.text (resolvedSizeMm spec d) spec.offsetXMm spec.offsetYMm).contours = []) :
    generateSolid base h spec d = base := by
  rcases hempty with ht | hsh
  · simp [generateSolid, ht, layout_nil]
  · simp [generateSolid, hsh]

/-- Witness for C2 at a concrete empty-text spec. -/
theorem generateSolid_empty_text_witness :
    generateSolid sampleBase sampleFont ⟨"A", [], none, none, 0, 0⟩ ⟨10, 4/5⟩ = sampleBase :=
  generateSolid_empty_text sampleBase sampleFont ⟨"A", [], none, none, 0, 0⟩ ⟨10, 4/5⟩
    (Or.inl rfl)

/-- C3: the single-item pipeline is a pure function of
(FontHandle, KeycapSpec, defaults, base template): two runs on
identical inputs produce byte-identical serialized output. -/
theorem pipelineBytes_deterministic (h h' : FontHandle) (spec spec' : KeycapSpec)
    (d d' : BatchDefaults) (base base' : Solid)
    (hh : h = h') (hspec : spec = spec') (hd : d = d') (hbase : base = base') :
    pipelineBytes h spec d base = pipelineBytes h' spec' d' base' := by
  subst hh hspec hd hbase
  rfl

/-- Witness for C3 at a concrete input. -/
theorem pipelineBytes_deterministic_witness :
    pipelineBytes sampleFont ⟨"5", ['5'], none, none, 0, 0⟩ ⟨10, 4/5⟩ sampleBase =
    pipelineBytes sampleFont ⟨"5", ['5'], none, none, 0, 0⟩ ⟨10, 4/5⟩ sampleBase :=
  pipelineBytes_deterministic sampleFont sampleFont _ _ _ _ sampleBase sampleBase
    rfl rfl rfl rfl

lemma runItems_spec (base : Solid) (h : FontHandle) (d : BatchDefaults) :
    ∀ (specs : List KeycapSpec) (acc : BatchResult),
      runItems base h d specs acc =
        ⟨acc.artifacts ++ (specs.filter (fun s => configValid s d)).map
            (fun s => ⟨s.id, filenameFor s, pipelineBytes h s d base⟩),
         acc.failures ++ (specs.filter (fun s => ! configValid s d)).map
            (fun s => ⟨s.id, ErrorKind.InvalidConfigError⟩)⟩
  | [], acc => by simp [runItems]
  | spec :: rest, acc => by
      cases hv : configValid spec d
      · simp [runItems, processItem, hv, runItems_spec base h d rest, List.filter_cons]
      · simp [runItems, processItem, hv, runItems_spec base h d rest, List.filter_cons]

lemma length_filter_bool {α : Type} (p : α → Bool) :
    ∀ l : List α, (l.filter p).length + (l.filter (fun a => ! p a)).length = l.length
  | [] => rfl
  | a :: l => by
      cases hp : p a <;>
        simp [List.filter_cons, hp, ← length_filter_bool p l] <;> omega

/-- C4: the orchestrator is fail-soft — with a parsed font and a
nonempty spec list it never aborts, and every per-item error becomes a
failure entry (artifacts + failures account for every spec); a batch in
which exactly one spec carries `depthMm = -1` and all others are valid
yields N−1 artifacts and exactly one `InvalidConfigError` failure. -/
theorem batch_fail_soft :
    (∀ (base : Solid) (h : FontHandle) (d : BatchDefaults) (specs : List KeycapSpec),
      specs ≠ [] →
      ∃ r, runBatch (Except.ok h) base specs d = Except.ok r ∧
        r.artifacts.length + r.failures.length = specs.length) ∧
    (∀ (base : Solid) (h : FontHandle) (d : BatchDefaults)
      (pre post : List KeycapSpec) (bad : KeycapSpec),
      (∀ s ∈ pre ++ post, configValid s d = true) →
      bad.depthMm = some (-1) →
      ∃ r, runBatch (Except.ok h) base (pre ++ bad :: post) d = Except.ok r ∧
        r.artifacts.length = pre.length + post.length ∧
        r.failures = [⟨bad.id, ErrorKind.InvalidConfigError⟩]) := by
  constructor
  · intro base h d specs hne
    refine ⟨runItems base h d specs ⟨[], []⟩, ?_, ?_⟩
    · have hie : specs.isEmpty = false := by
        cases specs
        · exact absurd rfl hne
        · rfl
      simp [runBatch, hie]
    · rw [runItems_spec]
      simpa using length_filter_bool (fun s => configValid s d) specs
  · intro base h d pre post bad hval hbad
    have hbadv : configValid bad d = false := by
      simp [configValid, resolvedDepthMm, hbad]
      intro _ _ hc
      exact absurd hc (by norm_num)
    have hpre : pre.filter (fun s => configValid s d) = pre :=
      List.filter_eq_self.mpr (fun s hs => hval s (List.mem_append_left _ hs))
    have hpost : post.filter (fun s => configValid s d) = post :=
      List.filter_eq_self.mpr (fun s hs => hval s (List.mem_append_right _ hs))
    have hpre' : pre.filter (fun s => ! configValid s d) = [] :=
      List.filter_eq_nil_iff.mpr (fun s hs => by
        simp [hval s (List.mem_append_left _ hs)])
    have hpost' : post.filter (fun s => ! configValid s d) = [] :=
      List.filter_eq_nil_iff.mpr (fun s hs => by
        simp [hval s (List.mem_append_right _ hs)])
    have hie : (pre ++ bad :: post).isEmpty = false := by cases pre <;> rfl
    refine ⟨runItems base h d (pre ++ bad :: post) ⟨[], []⟩, by simp [runBatch, hie], ?_, ?_⟩
    · rw [runItems_spec]
      simp [List.filter_append, List.filter_cons, hbadv, hpre, hpost]
    · rw [runItems_spec]
      simp [List.filter_append, List.filter_cons, hbadv, hpre', hpost']

/-- Witness for C4: a 3-spec batch whose middle spec has depth −1 yields
2 artifacts and one `InvalidConfigError` failure. -/
theorem batch_fail_soft_witness :
    ∃ r, runBatch (Except.ok sampleFont) sampleBase
        [⟨"0", ['A'], none, none, 0, 0⟩, ⟨"1", ['B'], none, some (-1), 0, 0⟩,
         ⟨"2", ['C'], none, none, 0, 0⟩] ⟨10, 4/5⟩ = Except.ok r ∧
      r.artifacts.length = 1 + 1 ∧
      r.failures = [⟨"1", ErrorKind.InvalidConfigError⟩] := by
  refine ?_
  have h := batch_fail_soft.2 sampleBase sampleFont ⟨10, 4/5⟩
      [⟨"0", ['A'], none, none, 0, 0⟩] [⟨"2", ['C'], none, none, 0, 0⟩]
      ⟨"1", ['B'], none, some (-1), 0, 0⟩ ?_ rfl
  · simpa using h
  · intro s hs
    simp only [List.mem_append, List.mem_singleton] at hs
    rcases hs with h' | h' <;> subst h' <;>
      norm_num [configValid, resolvedSizeMm, resolvedDepthMm]

/-- C5: when the per-keycap editor values respect the editor inputs'
declared `min`/`max` and the defaults respect the settings sliders'
declared `min`/`max`, the resolved (explicit-or-defaulted) size lies in
[3, 16] mm and the resolved depth in [0.1, 2.0] mm; each of the four
controls admits only values inside those bounds, and every backend
KeycapSpec that passes the generation gate `configValid` has its
resolved size and depth inside those same bounds. -/
theorem resolved_bounds (k : AppKeycap) (defaultSize engraveDepth : ℚ)
    (hs : ∀ v, k.size = some v → keycapEditorSizeInput.admitsVal v)
    (hd : ∀ v, k.depth = some v → keycapEditorDepthInput.admitsVal v)
    (hds : settingsSizeSlider.admitsVal defaultSize)
    (hdd : settingsDepthSlider.admitsVal engraveDepth) :
    (3 ≤ effectiveSize k defaultSize ∧ effectiveSize k defaultSize ≤ 16) ∧
    (1/10 ≤ effectiveDepth k engraveDepth ∧ effectiveDepth k engraveDepth ≤ 2) ∧
    (∀ v, keycapEditorSizeInput.admitsVal v → 3 ≤ v ∧ v ≤ 16) ∧
    (∀ v, keycapEditorDepthInput.admitsVal v → 1/10 ≤ v ∧ v ≤ 2) ∧
    (∀ v, settingsSizeSlider.admitsVal v → 3 ≤ v ∧ v ≤ 16) ∧
    (∀ v, settingsDepthSlider.admitsVal v → 1/10 ≤ v ∧ v ≤ 2) ∧
    (∀ (spec : KeycapSpec) (dd : BatchDefaults), configValid spec dd = true →
      (3 ≤ resolvedSizeMm spec dd ∧ resolvedSizeMm spec dd ≤ 16) ∧
      (1/10 ≤ resolvedDepthMm spec dd ∧ resolvedDepthMm spec dd ≤ 2)) := by
  simp only [RangeControl.admitsVal, keycapEditorSizeInput, keycapEditorDepthInput,
    settingsSizeSlider, settingsDepthSlider] at *
  refine ⟨?_, ?_, ?_, ?_, ?_, ?_, ?_⟩
  · cases hk : k.size with
    | none =>
        simp only [effectiveSize, hk, Option.getD_none]
        constructor <;> linarith [hds.1, hds.2]
    | some v =>
        have := hs v hk
        simp only [effectiveSize, hk, Option.getD_some]
        exact this
  · cases hk : k.depth with
    | none =>
        simp only [effectiveDepth, hk, Option.getD_none]
        constructor <;> [linarith [hdd.1]; linarith [hdd.2]]
    | some v =>
        have := hd v hk
        simp only [effectiveDepth, hk, Option.getD_some]
        constructor <;> [linarith [this.1]; linarith [this.2]]
  · exact fun v hv => hv
  · exact fun v hv => ⟨by linarith [hv.1], hv.2⟩
  · exact fun v hv => ⟨by linarith [hv.1], by linarith [hv.2]⟩
  · exact fun v hv => ⟨by linarith [hv.1], by linarith [hv.2]⟩
  · intro spec dd hcv
    simp only [configValid, Bool.and_eq_true, decide_eq_true_eq] at hcv
    exact ⟨⟨hcv.1.1.1, hcv.1.1.2⟩, ⟨hcv.1.2, hcv.2⟩⟩

/-- Witness for C5 at a concrete keycap (explicit size 10 mm, defaulted
depth) with defaults 10 mm / 0.8 mm. -/
theorem resolved_bounds_witness :
    (3 ≤ effectiveSize ⟨0, ['A'], some 10, 0, 0, none⟩ 10 ∧
      effectiveSize ⟨0, ['A'], some 10, 0, 0, none⟩ 10 ≤ 16) ∧
    (1/10 ≤ effectiveDepth ⟨0, ['A'], some 10, 0, 0, none⟩ (4/5) ∧
      effectiveDepth ⟨0, ['A'], some 10, 0, 0, none⟩ (4/5) ≤ 2) := by
  have h := resolved_bounds ⟨0, ['A'], some 10, 0, 0, none⟩ 10 (4/5)
    (by intro v hv; cases hv; constructor <;> norm_num [keycapEditorSizeInput])
    (by intro v hv; cases hv)
    (by constructor <;> norm_num [settingsSizeSlider])
    (by constructor <;> norm_num [settingsDepthSlider])
  exact ⟨h.1, h.2.1⟩

/-- C6: the payload built by `generateSTLs` uses a keycap's own size
when it is non-null and the batch default otherwise, likewise for
depth; an explicit 0 does not trigger the fallback. -/
theorem toRequestItem_fallback (k : AppKeycap) (ds ed : ℚ) :
    (∀ v, k.size = some v → (toRequestItem k ds ed).size = v) ∧
    (k.size = none → (toRequestItem k ds ed).size = ds) ∧
    (∀ v, k.depth = some v → (toRequestItem k ds ed).depth = v) ∧
    (k.depth = none → (toRequestItem k ds ed).depth = ed) ∧
    ((toRequestItem { k with size := some 0 } ds ed).size = 0) ∧
    ((toRequestItem { k with depth := some 0 } ds ed).depth = 0) ∧
    (∀ ks : List AppKeycap, k ∈ ks →
      toRequestItem k ds ed ∈ generateRequestItems ks ds ed) := by
  refine ⟨?_, ?_, ?_, ?_, rfl, rfl, ?_⟩
  · intro v hv; simp [toRequestItem, hv]
  · intro hv; simp [toRequestItem, hv]
  · intro v hv; simp [toRequestItem, hv]
  · intro hv; simp [toRequestItem, hv]
  · intro ks hk
    exact List.mem_map_of_mem _ hk

/-- Witness for C6: explicit size 0 is kept, null size falls back. -/
theorem toRequestItem_fallback_witness :
    (toRequestItem ⟨3, ['0'], some 0, 0, 0, none⟩ 10 (4/5)).size = 0 ∧
    (toRequestItem ⟨3, ['0'], some 0, 0, 0, none⟩ 10 (4/5)).depth = 4/5 := by
  have h := toRequestItem_fallback ⟨3, ['0'], some 0, 0, 0, none⟩ 10 (4/5)
  exact ⟨h.1 0 rfl, h.2.2.2.1 rfl⟩

/-- Counterexample to C7 as stated: clearing the KeycapEditor character
field stores the empty string — zero code points, not 1–4. -/
theorem keycapEditorCharUpdate_empty :
    (keycapEditorCharUpdate []).length = 0 := rfl

/-- C7 (amended): KeycapStrip's and PadGrid's `finishEdit` store a char
of 1–4 code points whenever they store at all and skip the update on an
empty entry, while KeycapEditor's character field stores at most 4 code
points but stores the empty string when the field is cleared. -/
theorem editors_char_length (i : String) (v : List Char) :
    (keycapEditorCharUpdate v).length ≤ 4 ∧
    (1 ≤ v.length →
      1 ≤ (keycapEditorCharUpdate v).length ∧ (keycapEditorCharUpdate v).length ≤ 4) ∧
    (∀ s, keycapStripFinishEdit (some i) v = some s →
      1 ≤ s.2.length ∧ s.2.length ≤ 4) ∧
    (∀ s, padGridFinishEdit (some i) v = some s →
      1 ≤ s.2.length ∧ s.2.length ≤ 4) ∧
    keycapStripFinishEdit none v = none ∧
    padGridFinishEdit none v = none := by
  refine ⟨?_, ?_, ?_, ?_, rfl, rfl⟩
  · simp [keycapEditorCharUpdate]
  · intro hv
    simp [keycapEditorCharUpdate, List.length_take]
    omega
  · intro s hs
    simp only [keycapStripFinishEdit] at hs
    by_cases hv : v.length > 0
    · simp only [if_pos hv, Option.some.injEq] at hs
      subst hs
      simp [List.length_take]
      omega
    · simp [if_neg hv] at hs
  · intro s hs
    simp only [padGridFinishEdit] at hs
    by_cases hv : v.length > 0
    · simp only [if_pos hv, Option.some.injEq] at hs
      subst hs
      simp [List.length_take]
      omega
    · simp [if_neg hv] at hs

/-- Witness for C7's amended statement at a one-character entry. -/
theorem editors_char_length_witness :
    (1 ≤ (keycapEditorCharUpdate ['X']).length ∧
      (keycapEditorCharUpdate ['X']).length ≤ 4) ∧
    (1 ≤ (("A", ['X']) : String × List Char).2.length ∧
      (("A", ['X']) : String × List Char).2.length ≤ 4) := by
  refine ⟨(editors_char_length "A" ['X']).2.1 (by decide), ?_⟩
  exact (editors_char_length "A" ['X']).2.2.1 ("A", ['X']) rfl

/-- C8: for every machine configuration, `createDefaultKeycaps` yields
one keycap per `KEYCAP_SEQUENCE` definition with zero offsets, null
size and depth, and char equal to the definition's default label —
except the DOT keycap, whose char is '■' when the machine's
`dotVariant` is `'square'`. -/
theorem createDefaultKeycaps_entries (config : MachineConfig) (d : KeycapDefinition)
    (hd : d ∈ KEYCAP_SEQUENCE) :
    (createDefaultKeycaps config).length = KEYCAP_SEQUENCE.length ∧
    (createDefaultKeycaps config).lookup d.id =
      some ⟨d.id, d.position,
        (if d.id = "DOT" ∧ config.dotVariant = DotVariant.square
          then ['■'] else d.defaultLabel),
        none, 0, 0, none⟩ := by
  constructor
  · simp [createDefaultKeycaps]
  · cases hdv : config.dotVariant
    · simp only [createDefaultKeycaps, hdv]
      fin_cases hd <;> rfl
    · simp only [createDefaultKeycaps, hdv]
      fin_cases hd <;> rfl

/-- Witness for C8: on the EP-40 (square dot variant) the DOT keycap
defaults to '■'. -/
theorem createDefaultKeycaps_entries_witness :
    (createDefaultKeycaps (MACHINE_CONFIGS MachineType.EP40)).lookup "DOT" =
      some ⟨"DOT", 13, ['■'], none, 0, 0, none⟩ := by
  have h := (createDefaultKeycaps_entries (MACHINE_CONFIGS MachineType.EP40)
      ⟨13, "DOT", ['·'], KeycapCategory.number⟩ (by decide)).2
  exact h.trans (by rfl)

/-- C9: `KEYCAP_SEQUENCE` has exactly 20 entries whose positions are
0..19 in order and whose ids are pairwise distinct; consequently
`createDefaultKeycaps` always yields a 20-entry record in which the
keycap stored under each id carries that id and the matching position. -/
theorem keycap_sequence_invariants :
    KEYCAP_SEQUENCE.length = 20 ∧
    KEYCAP_SEQUENCE.map (fun d => d.position) = List.range 20 ∧
    (KEYCAP_SEQUENCE.map (fun d => d.id)).Nodup ∧
    ∀ config : MachineConfig,
      (createDefaultKeycaps config).length = 20 ∧
      ∀ d ∈ KEYCAP_SEQUENCE, ∃ k,
        (createDefaultKeycaps config).lookup d.id = some k ∧
        k.id = d.id ∧ k.position = d.position := by
  refine ⟨rfl, by decide, by decide, ?_⟩
  intro config
  refine ⟨by simp [createDefaultKeycaps, KEYCAP_SEQUENCE], ?_⟩
  intro d hd
  cases hdv : config.dotVariant
  · simp only [createDefaultKeycaps, hdv]
    fin_cases hd <;> exact ⟨_, rfl, rfl, rfl⟩
  · simp only [createDefaultKeycaps, hdv]
    fin_cases hd <;> exact ⟨_, rfl, rfl, rfl⟩

/-- Witness for C9 at the PLAY keycap of the EP-133 configuration. -/
theorem keycap_sequence_invariants_witness :
    ∃ k, (createDefaultKeycaps (MACHINE_CONFIGS MachineType.EP133)).lookup "PLAY" =
        some k ∧ k.id = "PLAY" ∧ k.position = 19 :=
  (keycap_sequence_invariants.2.2.2 (MACHINE_CONFIGS MachineType.EP133)).2
    ⟨19, "PLAY", ['▶'], KeycapCategory.transport⟩ (by decide)

/-- Counterexample to C10 as stated: "Medieval KO II" contains
'medieval', so the claim requires 'EP-1320', but the function returns
'EP-133' because the EP-133 pattern group is checked first. -/
theorem detectMachineFromName_counterexample :
    detectMachineFromName ("Medieval KO II".toList) = some MachineType.EP133 ∧
    includesSub (lowerChars ("Medieval KO II".toList)) ("medieval".toList) = true := by
  decide

/-- C10 (amended): `detectMachineFromName` is a pure, case-insensitive
function of the device name in which the EP-133 pattern group takes
precedence over the EP-1320 group, which takes precedence over the
EP-40 group, which takes precedence over the generic Teenage
Engineering fallback; names matching no group map to null. -/
theorem detectMachineFromName_rule_order (name : List Char) :
    (matchesEP133 name = true →
      detectMachineFromName name = some MachineType.EP133) ∧
    (matchesEP133 name = false → matchesEP1320 name = true →
      detectMachineFromName name = some MachineType.EP1320) ∧
    (matchesEP133 name = false → matchesEP1320 name = false →
      matchesEP40 name = true →
      detectMachineFromName name = some MachineType.EP40) ∧
    (matchesEP133 name = false → matchesEP1320 name = false →
      matchesEP40 name = false → matchesTE name = true →
      detectMachineFromName name = some MachineType.EP133) ∧
    (matchesEP133 name = false → matchesEP1320 name = false →
      matchesEP40 name = false → matchesTE name = false →
      detectMachineFromName name = none) := by
  refine ⟨?_, ?_, ?_, ?_, ?_⟩
  · intro h1
    simp [detectMachineFromName, h1]
  · intro h1 h2
    simp [detectMachineFromName, h1, h2]
  · intro h1 h2 h3
    simp [detectMachineFromName, h1, h2, h3]
  · intro h1 h2 h3 h4
    simp [detectMachineFromName, h1, h2, h3, h4]
  · intro h1 h2 h3 h4
    simp [detectMachineFromName, h1, h2, h3, h4]

/-- Witness for C10's amended statement: an EP-1320 name that matches
no earlier group. -/
theorem detectMachineFromName_rule_order_witness :
    detectMachineFromName ("EP-1320 Medieval".toList) = some MachineType.EP1320 :=
  (detectMachineFromName_rule_order ("EP-1320 Medieval".toList)).2.1
    (by decide) (by decide)
